import Mathlib

/-!
flyteplugins: the K8s array plugin's launcher and template builder.

A shallow embedding of `go/tasks/plugins/array/k8s/launcher.go` (the pod policy
hooks and `TerminateSubTasks`) together with the parts of the template builder that
`transformer_test.go` exercises, and the properties proved about them.

Conventions of the embedding:

* a Go pointer argument that is mutated and returned (`pod *corev1.Pod`) becomes a
  function from the value before the call to the value after it;
* a Go `map[string]string` is an association list, and a field that may hold the nil
  map or the nil slice is an `Option` whose `none` is nil;
* the sub-task operations `Task.Abort` and `Task.Finalize` talk to the cluster, so
  they are operations on an explicit world state that return an optional error text;
  which calls were made is read off a log that the operations, not the code under
  study, write into the world.
-/

namespace FlytePlugins

/-! ## Data model -/

/-- A Go `map[string]string` as an association list of key/value pairs. -/
abbrev StrMap := List (String × String)

/-- Go's `len` on a string: the number of bytes. -/
def strLen (s : String) : Nat := s.utf8ByteSize

/-- Go's `len` on a map or slice that may be nil: nil has length zero. -/
def optLen {α : Type} : Option (List α) → Nat
  | none => 0
  | some xs => xs.length

/-- The `corev1.Toleration` record. -/
structure Toleration where
  Key : String
  Operator : String
  Value : String
  Effect : String
  TolerationSeconds : Option Int
  deriving DecidableEq, Repr

/-- The `corev1.Container` record, reduced to its name. -/
structure Container where
  Name : String
  deriving DecidableEq, Repr

/-- The `metav1.OwnerReference` record. -/
structure OwnerReference where
  APIVersion : String
  Kind : String
  Name : String
  UID : String
  deriving DecidableEq, Repr

/-- The `metav1.ObjectMeta` record: the fields the plugin reads or writes. -/
structure ObjectMeta where
  Namespace : String
  Labels : Option StrMap
  Annotations : Option StrMap
  OwnerReferences : Option (List OwnerReference)
  deriving DecidableEq, Repr

/-- The `corev1.PodSpec` record. `Other` stands for every field of the Go struct that is
not listed by name; its type is arbitrary. -/
structure PodSpec (ρ : Type) where
  Containers : List Container
  RestartPolicy : String
  NodeSelector : Option StrMap
  Tolerations : Option (List Toleration)
  SchedulerName : String
  Other : ρ
  deriving DecidableEq, Repr

/-- The `corev1.Pod` record: object metadata and pod spec. -/
structure Pod (ρ : Type) where
  ObjectMeta : ObjectMeta
  Spec : PodSpec ρ
  deriving DecidableEq, Repr

/-- The plugin's `Config` record: the fields `launcher.go` reads. -/
structure Config where
  DefaultScheduler : String
  MaxErrorStringLength : Int
  NodeSelector : Option StrMap
  Tolerations : Option (List Toleration)
  deriving DecidableEq, Repr

/-! ## Pod policy hooks (`launcher.go`, lines 39-65) -/

/-- The hook `ApplyPodPolicies`: sets the scheduler name when `cfg.DefaultScheduler` is not empty. -/
def ApplyPodPolicies {ρ : Type} (cfg : Config) (pod : Pod ρ) : Pod ρ :=
  if strLen cfg.DefaultScheduler > 0 then
    { pod with Spec := { pod.Spec with SchedulerName := cfg.DefaultScheduler } }
  else
    pod

/-- The hook `applyNodeSelectorLabels`: assigns the configured node selector when it has entries.
The two `logger.Info` calls have no effect on the pod. -/
def applyNodeSelectorLabels {ρ : Type} (cfg : Config) (pod : Pod ρ) : Pod ρ :=
  if optLen cfg.NodeSelector ≠ 0 then
    { pod with Spec := { pod.Spec with NodeSelector := cfg.NodeSelector } }
  else
    pod

/-- The hook `applyPodTolerations`: assigns the configured tolerations when the list has entries.
The two `logger.Info` calls have no effect on the pod. -/
def applyPodTolerations {ρ : Type} (cfg : Config) (pod : Pod ρ) : Pod ρ :=
  if optLen cfg.Tolerations ≠ 0 then
    { pod with Spec := { pod.Spec with Tolerations := cfg.Tolerations } }
  else
    pod

/-! ## Go's `fmt.Errorf` with a format and no operands

`TerminateSubTasks` builds its error with `fmt.Errorf(text)`: the text is the format
string and there are no operands. The functions below follow `doPrintf` of Go's
`fmt/print.go` for an empty operand list (`len(a) = 0`, so `argNum` stays `0`); the
operand-printing branches cannot be reached and are left out. The format is a list of
characters; every byte the scanner looks for is ASCII. -/

/-- The function `tooLarge` of `fmt/print.go`. -/
def tooLarge (x : Int) : Bool := x > 1000000 || x < -1000000

/-- The loop of `parsenum`: reads decimal digits from index `newi` while `newi < stop`.
The first argument bounds the number of iterations; `stop - start` is enough. -/
def parsenumLoop (s : List Char) (stop : Nat) : Nat → Nat → Int → Bool → Int × Bool × Nat
  | 0, newi, num, isnum => (num, isnum, newi)
  | fuel + 1, newi, num, isnum =>
    let c := s.getD newi ' '
    if newi < stop ∧ '0' ≤ c ∧ c ≤ '9' then
      if tooLarge num then (0, false, stop)
      else parsenumLoop s stop fuel (newi + 1) (num * 10 + ((c.toNat : Int) - 48)) true
    else (num, isnum, newi)

/-- The function `parsenum(s, start, end)` of `fmt/print.go`: the number, whether one was read, and the
index after it. -/
def parsenum (s : List Char) (start stop : Nat) : Int × Bool × Nat :=
  if start ≥ stop then (0, false, stop)
  else parsenumLoop s stop (stop - start) start 0 false

/-- The function `parseArgNumber(format)` of `fmt/print.go`, on the text that starts at a `[`:
the index, the width of the bracketed text, and whether it parsed. -/
def parseArgNumber (format : List Char) : Int × Nat × Bool :=
  if format.length < 3 then (0, 1, false)
  else
    let j := (format.drop 1).indexOf ']'
    if j < (format.drop 1).length then
      let i := j + 1
      let r := parsenum format 1 i
      if !r.2.1 || r.2.2 != i then (0, i + 1, false)
      else (r.1 - 1, i + 1, true)
    else (0, 1, false)

/-- The method `argNumber(argNum, format, i, numArgs)` of `fmt/print.go` with `numArgs = 0`; returns
the new index, `found`, and the value of `goodArgNum` after the call. -/
def argNumber (format : List Char) (i : Nat) (goodArgNum : Bool) : Nat × Bool × Bool :=
  if format[i]? ≠ some '[' then (i, false, goodArgNum)
  else
    let r := parseArgNumber (format.drop i)
    if r.2.2 ∧ 0 ≤ r.1 ∧ r.1 < 0 then (i + r.2.1, true, goodArgNum)
    else (i + r.2.1, r.2.2, false)

/-- The flag loop of `doPrintf`: skips `#`, `0`, `+`, `-` and the blank. -/
def skipFlags (format : List Char) : Nat → Nat → Nat
  | 0, i => i
  | fuel + 1, i =>
    match format[i]? with
    | some c => if c = '#' ∨ c = '0' ∨ c = '+' ∨ c = '-' ∨ c = ' ' then skipFlags format fuel (i + 1) else i
    | none => i

/-- One verb of `doPrintf`, from the index after the `%`: the text written and the index
to go on from, or `none` where the Go loop breaks (no verb). -/
def doVerb (format : List Char) (i0 : Nat) : List Char × Option Nat :=
  let stop := format.length
  let i := skipFlags format stop i0
  -- explicit argument index
  let a := argNumber format i true
  -- width
  let w : Nat × Bool × Bool × List Char :=
    if format[a.1]? = some '*' then (a.1 + 1, false, a.2.2, "%!(BADWIDTH)".data)
    else
      let r := parsenum format a.1 stop
      (r.2.2, a.2.1, a.2.2 && !(a.2.1 && r.2.1), [])
  -- precision: `if i+1 < end && format[i] == '.'`
  let p : Nat × Bool × Bool × List Char :=
    if w.1 + 1 < stop ∧ format[w.1]? = some '.' then
      let b := argNumber format (w.1 + 1) (w.2.2.1 && !w.2.1)
      if format[b.1]? = some '*' then (b.1 + 1, false, b.2.2, "%!(BADPREC)".data)
      else ((parsenum format b.1 stop).2.2, b.2.1, b.2.2, [])
    else (w.1, w.2.1, w.2.2.1, [])
  let c := if !p.2.1 then argNumber format p.1 p.2.2.1 else (p.1, p.2.1, p.2.2.1)
  let out := w.2.2.2 ++ p.2.2.2
  match format[c.1]? with
  | none => (out ++ "%!(NOVERB)".data, none)
  | some verb =>
    if verb = '%' then (out ++ ['%'], some (c.1 + 1))
    else if !c.2.2 then (out ++ "%!".data ++ [verb] ++ "(BADINDEX)".data, some (c.1 + 1))
    else (out ++ "%!".data ++ [verb] ++ "(MISSING)".data, some (c.1 + 1))

/-- The `formatLoop` of `doPrintf`. Every iteration moves the index forward, so
`format.length + 1` iterations are enough. -/
def formatLoop (format : List Char) : Nat → Nat → List Char → List Char
  | 0, _, buf => buf
  | fuel + 1, lasti, buf =>
    let i := lasti + ((format.drop lasti).takeWhile (fun c => c != '%')).length
    let buf := buf ++ (format.drop lasti).take (i - lasti)
    if i ≥ format.length then buf
    else
      let r := doVerb format (i + 1)
      match r.2 with
      | none => buf ++ r.1
      | some next => formatLoop format fuel next (buf ++ r.1)

/-- The text of the error `fmt.Errorf(format)` returns. -/
def Errorf (format : String) : String :=
  String.mk (formatLoop format.data (format.length + 1) 0 [])

/-! ## Sub-task termination (`launcher.go`, lines 67-94) -/

/-- Which of the two sub-task operations a call was. -/
inductive CallKind where
  | abort
  | finalize
  deriving DecidableEq, Repr

/-- One entry of the call log: the operation, the child index and the error it returned
(`none` for a nil error). -/
structure CallRecord where
  kind : CallKind
  childIdx : Nat
  err : Option String
  deriving DecidableEq, Repr

/-- The operations `Task.Abort` and `Task.Finalize` of the child with the given index.
They act on the cluster, so they take and return a world state `σ`; the result is the
text of the returned error, `none` for a nil error. -/
structure SubTaskOps (σ : Type) where
  Abort : Nat → σ → Option String × σ
  Finalize : Nat → σ → Option String × σ

/-- Modelled from the spec: the error collector (package `errorcollector`, which the
launcher imports and which is not among the sources). `Collect` appends a record
`(child index, message)`; `Length` is positive exactly when a record is held. -/
structure ErrorMessageCollector where
  records : List (Nat × String)
  deriving DecidableEq, Repr

/-- The constructor `errorcollector.NewErrorMessageCollector()`: no records. -/
def NewErrorMessageCollector : ErrorMessageCollector := ⟨[]⟩

/-- The method `Collect(index, message)`: appends a record. -/
def ErrorMessageCollector.Collect (e : ErrorMessageCollector) (index : Nat) (message : String) :
    ErrorMessageCollector :=
  ⟨e.records ++ [(index, message)]⟩

/-- The method `Length()`: the number of records held. -/
def ErrorMessageCollector.Length (e : ErrorMessageCollector) : Nat := e.records.length

/-- Modelled from the spec: the collector's `Summary(maxLength)` (package `errorcollector`,
not among the sources). The records are rendered in index order, each as an
index-prefixed message on a line of its own, and the text is cut to `maxLength`
characters with the marker `...` appended when it was cut. -/
def ErrorMessageCollector.Summary (e : ErrorMessageCollector) (maxLength : Int) : String :=
  let sorted := e.records.insertionSort (fun a b => a.1 ≤ b.1)
  let text := String.join (sorted.map (fun r => "[" ++ toString r.1 ++ "]: " ++ r.2 ++ "\n"))
  if (text.length : Int) ≤ maxLength then text
  else String.mk (text.data.take maxLength.toNat) ++ "..."

/-- The state the loop of `TerminateSubTasks` carries: the world and the collector
`errs`. -/
structure LoopState (σ : Type) where
  world : σ
  errs : ErrorMessageCollector

/-- The statement `if err != nil { errs.Collect(childIdx, err.Error()) }`. -/
def collectIfErr (errs : ErrorMessageCollector) (childIdx : Nat) : Option String → ErrorMessageCollector
  | some msg => errs.Collect childIdx msg
  | none => errs

/-- The body of the loop for one `childIdx` (lines 73-86): `Abort`, collect its error if
any, then `Finalize` in the world `Abort` left, collect its error if any. -/
def loopBody {σ : Type} (ops : SubTaskOps σ) (st : LoopState σ) (childIdx : Nat) : LoopState σ :=
  let a := ops.Abort childIdx st.world
  let errs1 := collectIfErr st.errs childIdx a.1
  let f := ops.Finalize childIdx a.2
  let errs2 := collectIfErr errs1 childIdx f.1
  { world := f.2, errs := errs2 }

/-- What `TerminateSubTasks` leaves behind: the returned error (`none` for nil), the
world after the calls, and the collector. -/
structure TerminateResult (σ : Type) where
  err : Option String
  world : σ
  errs : ErrorMessageCollector

/-- The function `TerminateSubTasks`. `size` is `currentState.GetExecutionArraySize()`, a Go `int`; the
loop `for childIdx := 0; childIdx < size; childIdx++` runs the body for
`0, 1, ..., size - 1` and not at all when `size ≤ 0`. `summary` is the collector's
`Summary` method. -/
def TerminateSubTasks {σ : Type} (ops : SubTaskOps σ)
    (summary : ErrorMessageCollector → Int → String) (config : Config) (size : Int) (w : σ) :
    TerminateResult σ :=
  let st := (List.range size.toNat).foldl (loopBody ops) ⟨w, NewErrorMessageCollector⟩
  { err := if st.errs.Length > 0 then some (Errorf (summary st.errs config.MaxErrorStringLength))
           else none,
    world := st.world, errs := st.errs }

/-! ## Observing the calls

The Go code keeps no log of its calls. To state which calls `TerminateSubTasks` makes,
the operations are wrapped so that the world itself carries a log: every application of
`Abort` or `Finalize` appends one entry with the result the operation returned. The
code under study cannot write to this log other than by calling the operations. -/

/-- The operation `Abort` of `ops`, recording its call and result in the world's log. -/
def recordAbort {σ : Type} (ops : SubTaskOps σ) (childIdx : Nat) (wl : σ × List CallRecord) :
    Option String × (σ × List CallRecord) :=
  ((ops.Abort childIdx wl.1).1,
   ((ops.Abort childIdx wl.1).2, wl.2 ++ [⟨CallKind.abort, childIdx, (ops.Abort childIdx wl.1).1⟩]))

/-- The operation `Finalize` of `ops`, recording its call and result in the world's log. -/
def recordFinalize {σ : Type} (ops : SubTaskOps σ) (childIdx : Nat) (wl : σ × List CallRecord) :
    Option String × (σ × List CallRecord) :=
  ((ops.Finalize childIdx wl.1).1,
   ((ops.Finalize childIdx wl.1).2,
    wl.2 ++ [⟨CallKind.finalize, childIdx, (ops.Finalize childIdx wl.1).1⟩]))

/-- The operations `ops` with a world that logs every call made to them. -/
def recordCalls {σ : Type} (ops : SubTaskOps σ) : SubTaskOps (σ × List CallRecord) :=
  { Abort := recordAbort ops, Finalize := recordFinalize ops }

/-- The calls the operations receive during `TerminateSubTasks`, in the order received,
each with the result it returned: the log of the world after the run, empty before. -/
def observedCalls {σ : Type} (ops : SubTaskOps σ)
    (summary : ErrorMessageCollector → Int → String) (config : Config) (size : Int) (w : σ) :
    List CallRecord :=
  (TerminateSubTasks (recordCalls ops) summary config size (w, [])).world.2

/-! ## The reference run

What the claims say the run is, written without the loop: for `i = 0, 1, ...` first
`Abort i`, then `Finalize i` in the world `Abort i` left. -/

/-- The world in which `Abort i` is called when, for every child before `i` in ascending
order, `Abort` and then `Finalize` has been called once. -/
def worldBefore {σ : Type} (ops : SubTaskOps σ) (w : σ) : Nat → σ
  | 0 => w
  | i + 1 => (ops.Finalize i (ops.Abort i (worldBefore ops w i)).2).2

/-- What `Abort i` returns in the reference run. -/
def abortResult {σ : Type} (ops : SubTaskOps σ) (w : σ) (i : Nat) : Option String :=
  (ops.Abort i (worldBefore ops w i)).1

/-- What `Finalize i` returns in the reference run. -/
def finalizeResult {σ : Type} (ops : SubTaskOps σ) (w : σ) (i : Nat) : Option String :=
  (ops.Finalize i (ops.Abort i (worldBefore ops w i)).2).1

/-- The two calls of child `i` in the reference run, with their results. -/
def callsOfChild {σ : Type} (ops : SubTaskOps σ) (w : σ) (i : Nat) : List CallRecord :=
  [⟨CallKind.abort, i, abortResult ops w i⟩, ⟨CallKind.finalize, i, finalizeResult ops w i⟩]

/-- The record a call contributes to the collector: `(child index, error text)` when the
call failed, nothing when it succeeded. -/
def failureRecord (c : CallRecord) : Option (Nat × String) :=
  c.err.map (fun msg => (c.childIdx, msg))

/-- The records child `i` contributes in the reference run: one for a failed `Abort i`,
then one for a failed `Finalize i`. -/
def recordsOfChild {σ : Type} (ops : SubTaskOps σ) (w : σ) (i : Nat) : List (Nat × String) :=
  (failureRecord ⟨CallKind.abort, i, abortResult ops w i⟩).toList ++
    (failureRecord ⟨CallKind.finalize, i, finalizeResult ops w i⟩).toList

/-! ## Template builder (`transformer.go`)

`buildPodMapTask` and `FlyteArrayJobToK8sPodTemplate` are called by
`transformer_test.go`; their file is not among the sources. They are modelled from the
spec (§4.2, §8), with the texts and values the tests assert. -/

/-- Lookup in a `map[string]string`: the value under key `k`, if any. -/
def StrMap.get : StrMap → String → Option String
  | [], _ => none
  | (k', v) :: rest, k => if k = k' then some v else StrMap.get rest k

/-- Assignment `m[k] = v`. -/
def StrMap.set (m : StrMap) (k v : String) : StrMap :=
  (k, v) :: m.filter (fun kv => kv.1 ≠ k)

/-- Union of two maps: every entry of `b`, and the entries of `a` whose key `b` lacks. -/
def StrMap.union (a b : StrMap) : StrMap :=
  b ++ a.filter (fun kv => (StrMap.get b kv.1).isNone)

/-- Go's `%v` rendering of a `map[string]string`: `map[k1:v1 k2:v2]`, keys in order. -/
def fmtMap (m : StrMap) : String :=
  "map[" ++ " ".intercalate ((m.insertionSort (fun a b => a.1 ≤ b.1)).map
    (fun kv => kv.1 ++ ":" ++ kv.2)) ++ "]"

/-- The config key that names the primary container (`primaryContainerKey`). -/
def primaryContainerKey : String := "primary_container_name"

/-- The annotation that forbids the cluster autoscaler to evict the pod. -/
def safeToEvictKey : String := "cluster-autoscaler.kubernetes.io/safe-to-evict"

/-- The value `corev1.RestartPolicyNever`. -/
def RestartPolicyNever : String := "Never"

/-- The error code `BadTaskSpecification`. -/
def BadTaskSpecification : String := "BadTaskSpecification"

/-- A plugin error: a code and a message. -/
structure PluginError where
  Code : String
  Message : String
  deriving DecidableEq, Repr

/-- The text of a plugin error: `[code] message`. -/
def PluginError.Error (e : PluginError) : String := "[" ++ e.Code ++ "] " ++ e.Message

/-- The `core.K8SObjectMetadata` message of a task template. -/
structure K8SObjectMetadata where
  Labels : Option StrMap
  Annotations : Option StrMap
  deriving DecidableEq, Repr

/-- The `core.K8SPod` target of a task template. `PodSpec` is the pod spec the embedded
document deserialises to, `none` when the template carries no document. -/
structure K8SPod (ρ : Type) where
  PodSpec : Option (PodSpec ρ)
  Metadata : Option K8SObjectMetadata
  deriving DecidableEq, Repr

/-- The `idlPlugins.ArrayJob` descriptor decoded from the template's custom payload. -/
structure ArrayJob where
  Size : Int
  deriving DecidableEq, Repr

/-- The `core.TaskTemplate` message: the fields the builder reads. -/
structure TaskTemplate (ρ : Type) where
  TaskTypeVersion : Int
  Config : Option StrMap
  K8SPod : Option (K8SPod ρ)
  Custom : ArrayJob
  deriving DecidableEq, Repr

/-- What the builder reads of `core.TaskExecutionMetadata`. -/
structure TaskExecutionMetadata where
  Namespace : String
  Labels : Option StrMap
  Annotations : Option StrMap
  OwnerReference : OwnerReference
  deriving DecidableEq, Repr

/-- The pod spec of a template, if it has one (`task.GetK8SPod().PodSpec`). -/
def TaskTemplate.podSpec {ρ : Type} (task : TaskTemplate ρ) : Option (PodSpec ρ) :=
  task.K8SPod.bind (fun k => k.PodSpec)

/-- The config map of a template (`task.GetConfig()`), empty when nil. -/
def TaskTemplate.config {ρ : Type} (task : TaskTemplate ρ) : StrMap :=
  task.Config.getD []

/-- The labels of the template's object metadata, empty when absent. -/
def TaskTemplate.labels {ρ : Type} (task : TaskTemplate ρ) : StrMap :=
  ((task.K8SPod.bind (fun k => k.Metadata)).bind (fun m => m.Labels)).getD []

/-- The annotations of the template's object metadata, empty when absent. -/
def TaskTemplate.annotations {ρ : Type} (task : TaskTemplate ρ) : StrMap :=
  ((task.K8SPod.bind (fun k => k.Metadata)).bind (fun m => m.Annotations)).getD []

/-- Modelled from the spec: `buildPodMapTask` of `transformer.go`, which is not among the
sources (§4.2 steps 1-4 and the three `TestBuildPodMapTask` tests). The pod spec is
checked first, then the config key; the built pod has the template's pod spec with the
restart policy forced to `Never`, the template's labels, and the template's annotations
with the synthesized `primary_container_name` entry. The execution metadata is the
second argument of the Go function (`nil` in the error tests); the tests show no effect
of it on the result. The policy hooks of step 5 take the plugin's `Config`, which is no
argument of this function; they are the functions of `launcher.go` above. -/
def buildPodMapTask {ρ : Type} (task : TaskTemplate ρ) (_metadata : Option TaskExecutionMetadata) :
    Except PluginError (Pod ρ) :=
  match task.podSpec with
  | none => Except.error ⟨BadTaskSpecification, "Missing pod spec for task"⟩
  | some podSpec =>
    match task.config.get primaryContainerKey with
    | none => Except.error ⟨BadTaskSpecification,
        "invalid TaskSpecification, config missing [" ++ primaryContainerKey ++ "] key in ["
          ++ fmtMap task.config ++ "]"⟩
    | some primaryContainerName =>
      Except.ok
        { ObjectMeta :=
            { Namespace := ""
              Labels := some task.labels
              Annotations := some (task.annotations.set primaryContainerKey primaryContainerName)
              OwnerReferences := none }
          Spec := { podSpec with RestartPolicy := RestartPolicyNever } }

/-- Modelled from the spec: `FlyteArrayJobToK8sPodTemplate` of `transformer.go`, which is
not among the sources (§4.2 step 4 and `TestFlyteArrayJobToK8sPodTemplate`). The pod
is built by `buildPodMapTask`; namespace and owner reference come from the execution
metadata; labels are the union of the execution metadata's and the template's;
annotations are the union of the execution metadata's and the built pod's, with
`safe-to-evict` set to `false`. The spec leaves open which side wins on a shared key;
here the built pod's entry does. The Go function has a third argument, the namespace
template, which the test passes empty; the model is that call. -/
def FlyteArrayJobToK8sPodTemplate {ρ : Type} (task : TaskTemplate ρ)
    (metadata : TaskExecutionMetadata) : Except PluginError (Pod ρ × ArrayJob) :=
  match buildPodMapTask task (some metadata) with
  | Except.error e => Except.error e
  | Except.ok pod =>
    Except.ok
      ({ pod with
          ObjectMeta :=
            { Namespace := metadata.Namespace
              Labels := some (StrMap.union (metadata.Labels.getD []) (pod.ObjectMeta.Labels.getD []))
              Annotations := some ((StrMap.union (metadata.Annotations.getD [])
                  (pod.ObjectMeta.Annotations.getD [])).set safeToEvictKey "false")
              OwnerReferences := some [metadata.OwnerReference] } },
       task.Custom)

/-! ## Concrete data of the tests and scenarios -/

/-- A config with nothing set. -/
def emptyConfig : Config :=
  { DefaultScheduler := "", MaxErrorStringLength := 0, NodeSelector := none, Tolerations := none }

/-- A config that sets all three policies. -/
def fullConfig : Config :=
  { DefaultScheduler := "volcano", MaxErrorStringLength := 100,
    NodeSelector := some [("pool", "gpu")],
    Tolerations := some [⟨"dedicated", "Equal", "flyte", "NoSchedule", none⟩] }

/-- The `podSpec` of `transformer_test.go`: two containers, nothing else set. -/
def testPodSpec : PodSpec Unit :=
  { Containers := [⟨"primary container"⟩, ⟨"secondary container"⟩], RestartPolicy := "",
    NodeSelector := none, Tolerations := none, SchedulerName := "", Other := () }

/-- A pod that already has a node selector, a toleration and a scheduler. -/
def placedPod : Pod Unit :=
  { ObjectMeta := { Namespace := "n", Labels := none, Annotations := none, OwnerReferences := none },
    Spec := { testPodSpec with
      NodeSelector := some [("zone", "a"), ("pool", "cpu")],
      Tolerations := some [⟨"old", "Exists", "", "NoExecute", some 30⟩],
      SchedulerName := "default-scheduler" } }

/-- The template `getK8sPodTask` of `transformer_test.go` builds, for given annotations. -/
def getK8sPodTask (annotations : Option StrMap) : TaskTemplate Unit :=
  { TaskTypeVersion := 2,
    Config := some [(primaryContainerKey, "primary container")],
    K8SPod := some { PodSpec := some testPodSpec,
                     Metadata := some { Labels := some [("label", "foo")], Annotations := annotations } },
    Custom := ⟨100⟩ }

/-- The execution metadata of `TestFlyteArrayJobToK8sPodTemplate`. -/
def testMetadata : TaskExecutionMetadata :=
  { Namespace := "n", Labels := some [("tCtx", "label")], Annotations := some [("tCtx", "anno")],
    OwnerReference := ⟨"", "", "", ""⟩ }

/-- The `Abort` of the scenario of five children: it fails for child 3. The world state
counts the calls made. -/
def scenarioAbort (childIdx : Nat) (w : Nat) : Option String × Nat :=
  (if childIdx = 3 then some "abort failed" else none, w + 1)

/-- The `Finalize` of the scenario of five children: it fails for child 4. -/
def scenarioFinalize (childIdx : Nat) (w : Nat) : Option String × Nat :=
  (if childIdx = 4 then some "finalize failed" else none, w + 1)

/-- The scenario of five children: `Abort` fails for child 3, `Finalize` for child 4. -/
def scenarioOps : SubTaskOps Nat :=
  { Abort := scenarioAbort, Finalize := scenarioFinalize }

/-- An `Abort` that fails for every child. -/
def failingAbort (_childIdx : Nat) (w : Unit) : Option String × Unit := (some "a", w)

/-- A `Finalize` that fails for every child. -/
def failingFinalize (_childIdx : Nat) (w : Unit) : Option String × Unit := (some "f", w)

/-- Operations of which every call fails. -/
def bothFailOps : SubTaskOps Unit :=
  { Abort := failingAbort, Finalize := failingFinalize }

/-- One child whose `Abort` fails with a text that holds a percent sign. -/
def percentOps : SubTaskOps Unit :=
  { Abort := fun _ w => (some "disk 95% full", w),
    Finalize := fun _ w => (none, w) }

/-! ## Properties of the pod policy hooks -/

/-- A string that is not empty has a positive byte length. -/
theorem strLen_pos_of_ne_empty (s : String) (h : s ≠ "") : 0 < strLen s := by
  cases s with
  | mk cs =>
    cases cs with
    | nil => exact absurd rfl h
    | cons c cs =>
      simp only [strLen, String.utf8ByteSize, String.utf8ByteSize.go]
      have := Char.utf8Size_pos c
      omega

/-- A nil or empty map or slice has length zero. -/
theorem optLen_eq_zero_iff {α : Type} (o : Option (List α)) :
    optLen o = 0 ↔ o = none ∨ o = some [] := by
  cases o with
  | none => simp [optLen]
  | some xs => cases xs <;> simp [optLen]

/-- C5: each pod policy hook returns the pod unchanged when its configuration is unset:
`ApplyPodPolicies` for an empty `DefaultScheduler`, `applyNodeSelectorLabels` for a nil or
empty `NodeSelector`, `applyPodTolerations` for a nil or empty `Tolerations`. -/
theorem pod_policy_hooks_noop_when_unset {ρ : Type} (cfg : Config) (pod : Pod ρ) :
    (cfg.DefaultScheduler = "" → ApplyPodPolicies cfg pod = pod) ∧
    (cfg.NodeSelector = none ∨ cfg.NodeSelector = some [] → applyNodeSelectorLabels cfg pod = pod) ∧
    (cfg.Tolerations = none ∨ cfg.Tolerations = some [] → applyPodTolerations cfg pod = pod) := by
  refine ⟨?_, ?_, ?_⟩
  · intro h
    have h0 : strLen cfg.DefaultScheduler = 0 := by rw [h]; rfl
    simp [ApplyPodPolicies, h0]
  · intro h
    have h0 := (optLen_eq_zero_iff cfg.NodeSelector).mpr h
    simp [applyNodeSelectorLabels, h0]
  · intro h
    have h0 := (optLen_eq_zero_iff cfg.Tolerations).mpr h
    simp [applyPodTolerations, h0]

/-- C5 at a concrete input: the config with nothing set leaves a pod that has a node
selector, a toleration and a scheduler as it is, under each hook. -/
theorem pod_policy_hooks_noop_when_unset_witness :
    ApplyPodPolicies emptyConfig placedPod = placedPod ∧
    applyNodeSelectorLabels emptyConfig placedPod = placedPod ∧
    applyPodTolerations { emptyConfig with Tolerations := some [] } placedPod = placedPod :=
  ⟨(pod_policy_hooks_noop_when_unset emptyConfig placedPod).1 rfl,
   (pod_policy_hooks_noop_when_unset emptyConfig placedPod).2.1 (Or.inl rfl),
   (pod_policy_hooks_noop_when_unset { emptyConfig with Tolerations := some [] } placedPod).2.2
     (Or.inr rfl)⟩

/-- C6: the node-selector and toleration hooks overwrite: with a non-empty configured
`NodeSelector` the returned pod's node selector is the configured map, and with a
non-empty configured `Tolerations` its toleration list is the configured list. -/
theorem pod_policy_hooks_overwrite {ρ : Type} (cfg : Config) (pod : Pod ρ) :
    (optLen cfg.NodeSelector ≠ 0 →
      (applyNodeSelectorLabels cfg pod).Spec.NodeSelector = cfg.NodeSelector) ∧
    (optLen cfg.Tolerations ≠ 0 →
      (applyPodTolerations cfg pod).Spec.Tolerations = cfg.Tolerations) := by
  refine ⟨?_, ?_⟩
  · intro h
    simp [applyNodeSelectorLabels, h]
  · intro h
    simp [applyPodTolerations, h]

/-- C6 at a concrete input: the pod's selector `zone, pool` becomes the configured `pool`
alone, and its toleration `old` is replaced by the configured one. -/
theorem pod_policy_hooks_overwrite_witness :
    (applyNodeSelectorLabels fullConfig placedPod).Spec.NodeSelector = some [("pool", "gpu")] ∧
    (applyPodTolerations fullConfig placedPod).Spec.Tolerations =
      some [⟨"dedicated", "Equal", "flyte", "NoSchedule", none⟩] :=
  ⟨(pod_policy_hooks_overwrite fullConfig placedPod).1 (by decide),
   (pod_policy_hooks_overwrite fullConfig placedPod).2 (by decide)⟩

/-- The hook `ApplyPodPolicies` written as one record update. -/
theorem ApplyPodPolicies_eq {ρ : Type} (cfg : Config) (pod : Pod ρ) :
    ApplyPodPolicies cfg pod =
      { pod with Spec := { pod.Spec with
          SchedulerName := if strLen cfg.DefaultScheduler > 0 then cfg.DefaultScheduler
                           else pod.Spec.SchedulerName } } := by
  unfold ApplyPodPolicies
  split <;> rfl

/-- The hook `applyNodeSelectorLabels` written as one record update. -/
theorem applyNodeSelectorLabels_eq {ρ : Type} (cfg : Config) (pod : Pod ρ) :
    applyNodeSelectorLabels cfg pod =
      { pod with Spec := { pod.Spec with
          NodeSelector := if optLen cfg.NodeSelector ≠ 0 then cfg.NodeSelector
                          else pod.Spec.NodeSelector } } := by
  unfold applyNodeSelectorLabels
  split <;> rfl

/-- The hook `applyPodTolerations` written as one record update. -/
theorem applyPodTolerations_eq {ρ : Type} (cfg : Config) (pod : Pod ρ) :
    applyPodTolerations cfg pod =
      { pod with Spec := { pod.Spec with
          Tolerations := if optLen cfg.Tolerations ≠ 0 then cfg.Tolerations
                         else pod.Spec.Tolerations } } := by
  unfold applyPodTolerations
  split <;> rfl

/-- C10: each hook changes at most its own field. `ApplyPodPolicies` changes at most
`Spec.SchedulerName` (to `cfg.DefaultScheduler` when that is not empty) and leaves node
selector and tolerations as they are whatever the config holds; `applyNodeSelectorLabels`
changes at most `Spec.NodeSelector`; `applyPodTolerations` changes at most
`Spec.Tolerations`. Each hook is idempotent, and the six orders of applying the three
hooks give the same pod. -/
theorem pod_policy_hooks_frame {ρ : Type} (cfg : Config) (pod : Pod ρ) :
    (ApplyPodPolicies cfg pod =
        { pod with Spec := { pod.Spec with
            SchedulerName := (ApplyPodPolicies cfg pod).Spec.SchedulerName } } ∧
      (ApplyPodPolicies cfg pod).Spec.NodeSelector = pod.Spec.NodeSelector ∧
      (ApplyPodPolicies cfg pod).Spec.Tolerations = pod.Spec.Tolerations ∧
      (cfg.DefaultScheduler ≠ "" →
        (ApplyPodPolicies cfg pod).Spec.SchedulerName = cfg.DefaultScheduler)) ∧
    applyNodeSelectorLabels cfg pod =
        { pod with Spec := { pod.Spec with
            NodeSelector := (applyNodeSelectorLabels cfg pod).Spec.NodeSelector } } ∧
    applyPodTolerations cfg pod =
        { pod with Spec := { pod.Spec with
            Tolerations := (applyPodTolerations cfg pod).Spec.Tolerations } } ∧
    (ApplyPodPolicies cfg (ApplyPodPolicies cfg pod) = ApplyPodPolicies cfg pod ∧
      applyNodeSelectorLabels cfg (applyNodeSelectorLabels cfg pod) =
        applyNodeSelectorLabels cfg pod ∧
      applyPodTolerations cfg (applyPodTolerations cfg pod) = applyPodTolerations cfg pod) ∧
    (ApplyPodPolicies cfg (applyPodTolerations cfg (applyNodeSelectorLabels cfg pod)) =
        ApplyPodPolicies cfg (applyNodeSelectorLabels cfg (applyPodTolerations cfg pod)) ∧
      applyNodeSelectorLabels cfg (ApplyPodPolicies cfg (applyPodTolerations cfg pod)) =
        ApplyPodPolicies cfg (applyNodeSelectorLabels cfg (applyPodTolerations cfg pod)) ∧
      applyNodeSelectorLabels cfg (applyPodTolerations cfg (ApplyPodPolicies cfg pod)) =
        ApplyPodPolicies cfg (applyNodeSelectorLabels cfg (applyPodTolerations cfg pod)) ∧
      applyPodTolerations cfg (ApplyPodPolicies cfg (applyNodeSelectorLabels cfg pod)) =
        ApplyPodPolicies cfg (applyNodeSelectorLabels cfg (applyPodTolerations cfg pod)) ∧
      applyPodTolerations cfg (applyNodeSelectorLabels cfg (ApplyPodPolicies cfg pod)) =
        ApplyPodPolicies cfg (applyNodeSelectorLabels cfg (applyPodTolerations cfg pod))) := by
  refine ⟨⟨?_, ?_, ?_, ?_⟩, ?_, ?_, ⟨?_, ?_, ?_⟩, ⟨?_, ?_, ?_, ?_, ?_⟩⟩
  · rw [ApplyPodPolicies_eq]
  · rw [ApplyPodPolicies_eq]
  · rw [ApplyPodPolicies_eq]
  · intro h
    rw [ApplyPodPolicies_eq]
    simp [strLen_pos_of_ne_empty _ h]
  · rw [applyNodeSelectorLabels_eq]
  · rw [applyPodTolerations_eq]
  · simp only [ApplyPodPolicies_eq]
    split <;> rfl
  · simp only [applyNodeSelectorLabels_eq]
    split <;> rfl
  · simp only [applyPodTolerations_eq]
    split <;> rfl
  all_goals simp only [ApplyPodPolicies_eq, applyNodeSelectorLabels_eq, applyPodTolerations_eq]

/-- C10 at a concrete input: with all three policies configured, `ApplyPodPolicies` sets the
scheduler of the pod and keeps its node selector and toleration. -/
theorem pod_policy_hooks_frame_witness :
    (ApplyPodPolicies fullConfig placedPod).Spec.SchedulerName = "volcano" ∧
    (ApplyPodPolicies fullConfig placedPod).Spec.NodeSelector = some [("zone", "a"), ("pool", "cpu")] ∧
    (ApplyPodPolicies fullConfig placedPod).Spec.Tolerations =
      some [⟨"old", "Exists", "", "NoExecute", some 30⟩] :=
  ⟨(pod_policy_hooks_frame fullConfig placedPod).1.2.2.2 (by decide),
   (pod_policy_hooks_frame fullConfig placedPod).1.2.1,
   (pod_policy_hooks_frame fullConfig placedPod).1.2.2.1⟩

/-! ## Properties of `TerminateSubTasks` -/

/-- Collecting an optional error appends the record of that call, if any. -/
theorem collectIfErr_records (errs : ErrorMessageCollector) (i : Nat) (e : Option String) :
    collectIfErr errs i e = ⟨errs.records ++ (e.map (fun msg => (i, msg))).toList⟩ := by
  cases e <;> simp [collectIfErr, ErrorMessageCollector.Collect]

/-- After `n` rounds from the start the loop is in the state of the reference run: the
world is `worldBefore n` and the collector holds the records of the children before `n`. -/
theorem loop_eq_reference {σ : Type} (ops : SubTaskOps σ) (w : σ) (n : Nat) :
    (List.range n).foldl (loopBody ops) ⟨w, NewErrorMessageCollector⟩ =
      ⟨worldBefore ops w n, ⟨(List.range n).flatMap (recordsOfChild ops w)⟩⟩ := by
  induction n with
  | zero => simp [NewErrorMessageCollector, worldBefore]
  | succ n ih =>
    rw [List.range_succ, List.foldl_append, ih]
    simp only [List.foldl_cons, List.foldl_nil, loopBody, worldBefore, collectIfErr_records,
      List.flatMap_append, List.flatMap_cons, List.flatMap_nil, List.append_nil, recordsOfChild,
      failureRecord, abortResult, finalizeResult, List.append_assoc]

/-- The reference run of the recording operations is the reference run of the operations,
with the calls of the children so far appended to the log. -/
theorem worldBefore_recordCalls {σ : Type} (ops : SubTaskOps σ) (w : σ) (log : List CallRecord)
    (i : Nat) :
    worldBefore (recordCalls ops) (w, log) i =
      (worldBefore ops w i, log ++ (List.range i).flatMap (callsOfChild ops w)) := by
  induction i with
  | zero => simp [worldBefore]
  | succ i ih =>
    simp only [worldBefore]
    rw [ih]
    simp [recordCalls, recordAbort, recordFinalize, List.range_succ, List.flatMap_append,
      callsOfChild, abortResult, finalizeResult]

/-- Recording does not change the records a child contributes. -/
theorem recordsOfChild_recordCalls {σ : Type} (ops : SubTaskOps σ) (w : σ) (i : Nat) :
    recordsOfChild (recordCalls ops) (w, []) i = recordsOfChild ops w i := by
  simp only [recordsOfChild, abortResult, finalizeResult, worldBefore_recordCalls]
  simp [recordCalls, recordAbort, recordFinalize]

/-- The calls observed during `TerminateSubTasks` are those of the reference run. -/
theorem observedCalls_eq {σ : Type} (ops : SubTaskOps σ)
    (summary : ErrorMessageCollector → Int → String) (config : Config) (size : Int) (w : σ) :
    observedCalls ops summary config size w =
      (List.range size.toNat).flatMap (callsOfChild ops w) := by
  simp [observedCalls, TerminateSubTasks, loop_eq_reference, worldBefore_recordCalls]

/-- The operation and child index of the calls of the reference run. -/
theorem callsOfChild_keys {σ : Type} (ops : SubTaskOps σ) (w : σ) (n : Nat) :
    ((List.range n).flatMap (callsOfChild ops w)).map (fun c => (c.kind, c.childIdx)) =
      (List.range n).flatMap (fun i => [(CallKind.abort, i), (CallKind.finalize, i)]) := by
  induction n with
  | zero => simp
  | succ n ih => simp [List.range_succ, List.flatMap_append, ih, callsOfChild]

/-- The failures among the calls of the reference run are its records. -/
theorem callsOfChild_failures {σ : Type} (ops : SubTaskOps σ) (w : σ) (n : Nat) :
    ((List.range n).flatMap (callsOfChild ops w)).filterMap failureRecord =
      (List.range n).flatMap (recordsOfChild ops w) := by
  induction n with
  | zero => simp
  | succ n ih =>
    simp only [List.range_succ, List.flatMap_append, List.filterMap_append, ih,
      List.flatMap_cons, List.flatMap_nil, List.append_nil, callsOfChild, recordsOfChild]
    congr 1
    cases abortResult ops w n <;> cases finalizeResult ops w n <;>
      simp [List.filterMap_cons, failureRecord]

/-- A record of child `i` in the reference run carries the index `i`. -/
theorem recordsOfChild_index {σ : Type} (ops : SubTaskOps σ) (w : σ) (i : Nat) :
    ∀ r ∈ recordsOfChild ops w i, r.1 = i := by
  intro r hr
  simp only [recordsOfChild, failureRecord, List.mem_append, Option.mem_toList,
    Option.mem_def, Option.map_eq_some'] at hr
  rcases hr with ⟨_, _, h⟩ | ⟨_, _, h⟩ <;> rw [← h]

/-- The records of the reference run come in non-decreasing index order. -/
theorem recordsOfChild_sorted {σ : Type} (ops : SubTaskOps σ) (w : σ) (n : Nat) :
    (((List.range n).flatMap (recordsOfChild ops w)).map Prod.fst).Pairwise
      (fun a b => a ≤ b) := by
  induction n with
  | zero => simp
  | succ n ih =>
    have hlt : ∀ a ∈ ((List.range n).flatMap (recordsOfChild ops w)).map Prod.fst, a < n := by
      intro a ha
      simp only [List.mem_map, List.mem_flatMap, List.mem_range] at ha
      obtain ⟨r, ⟨i, hi, hr⟩, rfl⟩ := ha
      rw [recordsOfChild_index ops w i r hr]
      exact hi
    simp only [List.range_succ, List.flatMap_append, List.map_append, List.pairwise_append,
      List.flatMap_cons, List.flatMap_nil, List.append_nil]
    refine ⟨ih, ?_, ?_⟩
    · rw [List.pairwise_map]
      refine List.Pairwise.imp_of_mem ?_ (List.pairwise_of_forall (R := fun _ _ => True) ?_)
      · intro a b ha hb _
        rw [recordsOfChild_index ops w n a ha, recordsOfChild_index ops w n b hb]
      · intro _ _; trivial
    · intro a ha b hb
      have h1 := hlt a ha
      simp only [List.mem_map] at hb
      obtain ⟨r, hr, rfl⟩ := hb
      rw [recordsOfChild_index ops w n r hr]
      omega

/-- No record is collected exactly when every call of the reference run succeeds. -/
theorem recordsOfChild_nil_iff {σ : Type} (ops : SubTaskOps σ) (w : σ) (n : Nat) :
    (List.range n).flatMap (recordsOfChild ops w) = [] ↔
      ∀ i < n, abortResult ops w i = none ∧ finalizeResult ops w i = none := by
  simp only [List.flatMap_eq_nil_iff, List.mem_range, recordsOfChild, List.append_eq_nil,
    failureRecord]
  constructor
  · intro h i hi
    have := h i hi
    constructor
    · cases ha : abortResult ops w i <;> simp_all
    · cases hf : finalizeResult ops w i <;> simp_all
  · intro h i hi
    simp [(h i hi).1, (h i hi).2]

/-- C1: for every array size and every behaviour of the per-child `Abort` and `Finalize`
operations, the calls the operations receive during `TerminateSubTasks` are `Abort i`
and then `Finalize i`, once for every child `i = 0, 1, ..., size - 1` in ascending order,
and no other call; each call is made in the world the call before it left, and returns
what the operation returns there, so no failure stops the calls that follow. Recording
the calls changes neither the world nor the error returned. -/
theorem TerminateSubTasks_calls_every_child {σ : Type} (ops : SubTaskOps σ)
    (summary : ErrorMessageCollector → Int → String) (config : Config) (size : Int) (w : σ) :
    (observedCalls ops summary config size w).map (fun c => (c.kind, c.childIdx)) =
      (List.range size.toNat).flatMap
        (fun i => [(CallKind.abort, i), (CallKind.finalize, i)]) ∧
    observedCalls ops summary config size w =
      (List.range size.toNat).flatMap (fun i =>
        [⟨CallKind.abort, i, (ops.Abort i (worldBefore ops w i)).1⟩,
         ⟨CallKind.finalize, i, (ops.Finalize i (ops.Abort i (worldBefore ops w i)).2).1⟩]) ∧
    (TerminateSubTasks ops summary config size w).world = worldBefore ops w size.toNat ∧
    (TerminateSubTasks (recordCalls ops) summary config size (w, [])).world.1 =
      (TerminateSubTasks ops summary config size w).world ∧
    (TerminateSubTasks (recordCalls ops) summary config size (w, [])).err =
      (TerminateSubTasks ops summary config size w).err := by
  have hrec : (fun i => recordsOfChild (recordCalls ops) (w, []) i) = recordsOfChild ops w :=
    funext (recordsOfChild_recordCalls ops w)
  refine ⟨?_, ?_, ?_, ?_, ?_⟩
  · rw [observedCalls_eq, callsOfChild_keys]
  · rw [observedCalls_eq]
    rfl
  · simp [TerminateSubTasks, loop_eq_reference]
  · simp [TerminateSubTasks, loop_eq_reference, worldBefore_recordCalls]
  · simp only [TerminateSubTasks, loop_eq_reference]
    rw [show recordsOfChild (recordCalls ops) (w, []) = recordsOfChild ops w from hrec]

/-- C1 on the scenario of five children (`Abort` fails for child 3, `Finalize` for
child 4): the ten calls are made, in order. -/
theorem TerminateSubTasks_calls_every_child_witness :
    (observedCalls scenarioOps ErrorMessageCollector.Summary fullConfig 5 0).map
        (fun c => (c.kind, c.childIdx)) =
      [(CallKind.abort, 0), (CallKind.finalize, 0), (CallKind.abort, 1), (CallKind.finalize, 1),
       (CallKind.abort, 2), (CallKind.finalize, 2), (CallKind.abort, 3), (CallKind.finalize, 3),
       (CallKind.abort, 4), (CallKind.finalize, 4)] :=
  (TerminateSubTasks_calls_every_child scenarioOps ErrorMessageCollector.Summary fullConfig 5 0).1

/-- C1's scenario: five children, `Abort` fails for child 3 and `Finalize` for child 4;
the operations receive all ten calls, in order, and return these results. The world of
the scenario counts the calls: ten. -/
theorem TerminateSubTasks_scenario_calls :
    observedCalls scenarioOps ErrorMessageCollector.Summary fullConfig 5 0 =
      [⟨CallKind.abort, 0, none⟩, ⟨CallKind.finalize, 0, none⟩,
       ⟨CallKind.abort, 1, none⟩, ⟨CallKind.finalize, 1, none⟩,
       ⟨CallKind.abort, 2, none⟩, ⟨CallKind.finalize, 2, none⟩,
       ⟨CallKind.abort, 3, some "abort failed"⟩, ⟨CallKind.finalize, 3, none⟩,
       ⟨CallKind.abort, 4, none⟩, ⟨CallKind.finalize, 4, some "finalize failed"⟩] ∧
    (TerminateSubTasks scenarioOps ErrorMessageCollector.Summary fullConfig 5 0).world = 10 := by
  decide

/-- C2: `TerminateSubTasks` returns nil exactly when every `Abort i` and every
`Finalize i` for `i` in `[0, size)` returned nil, each called in the world the calls
before it left; it returns one non-nil error exactly when one of them failed; and in both
cases it returns after all the calls: the operations have received `Abort i`,
`Finalize i` for every child, and the world returned is the world after the last call. -/
theorem TerminateSubTasks_nil_iff_all_succeed {σ : Type} (ops : SubTaskOps σ)
    (summary : ErrorMessageCollector → Int → String) (config : Config) (size : Int) (w : σ) :
    ((TerminateSubTasks ops summary config size w).err = none ↔
      ∀ i < size.toNat, (ops.Abort i (worldBefore ops w i)).1 = none ∧
        (ops.Finalize i (ops.Abort i (worldBefore ops w i)).2).1 = none) ∧
    ((TerminateSubTasks ops summary config size w).err.isSome ↔
      ∃ i < size.toNat, (ops.Abort i (worldBefore ops w i)).1.isSome ∨
        (ops.Finalize i (ops.Abort i (worldBefore ops w i)).2).1.isSome) ∧
    ((TerminateSubTasks ops summary config size w).err = none ↔
      ∀ c ∈ observedCalls ops summary config size w, c.err = none) ∧
    (observedCalls ops summary config size w).map (fun c => (c.kind, c.childIdx)) =
      (List.range size.toNat).flatMap
        (fun i => [(CallKind.abort, i), (CallKind.finalize, i)]) ∧
    (TerminateSubTasks ops summary config size w).world = worldBefore ops w size.toNat := by
  have hnil := recordsOfChild_nil_iff ops w size.toNat
  simp only [abortResult, finalizeResult] at hnil
  have hiff : (TerminateSubTasks ops summary config size w).err = none ↔
      ∀ i < size.toNat, (ops.Abort i (worldBefore ops w i)).1 = none ∧
        (ops.Finalize i (ops.Abort i (worldBefore ops w i)).2).1 = none := by
    rw [← hnil]
    simp only [TerminateSubTasks, loop_eq_reference, ErrorMessageCollector.Length]
    cases (List.range size.toNat).flatMap (recordsOfChild ops w) <;> simp
  refine ⟨hiff, ?_, ?_, ?_, ?_⟩
  · rw [← Option.not_isSome_iff_eq_none] at hiff
    have h := not_iff_not.mpr hiff
    simp only [not_not] at h
    rw [h]
    constructor
    · intro hne
      by_contra hcon
      apply hne
      intro i hi
      constructor
      · cases ha : (ops.Abort i (worldBefore ops w i)).1 with
        | none => rfl
        | some e => exact absurd ⟨i, hi, Or.inl (by simp [ha])⟩ hcon
      · cases hf : (ops.Finalize i (ops.Abort i (worldBefore ops w i)).2).1 with
        | none => rfl
        | some e => exact absurd ⟨i, hi, Or.inr (by simp [hf])⟩ hcon
    · rintro ⟨i, hi, h1 | h1⟩ hall
      · simp [(hall i hi).1] at h1
      · simp [(hall i hi).2] at h1
  · rw [hiff, observedCalls_eq]
    simp only [List.mem_flatMap, List.mem_range, callsOfChild, abortResult, finalizeResult]
    constructor
    · rintro hall c ⟨i, hi, hc⟩
      simp only [List.mem_cons, List.mem_singleton, List.not_mem_nil, or_false] at hc
      rcases hc with rfl | rfl
      · exact (hall i hi).1
      · exact (hall i hi).2
    · intro hall i hi
      exact ⟨hall ⟨CallKind.abort, i, _⟩ ⟨i, hi, by simp⟩,
        hall ⟨CallKind.finalize, i, _⟩ ⟨i, hi, by simp⟩⟩
  · rw [observedCalls_eq, callsOfChild_keys]
  · simp [TerminateSubTasks, loop_eq_reference]

/-- C2 on the scenario of five children: an error is returned, as `Abort 3` fails, and
the operations have received ten calls. -/
theorem TerminateSubTasks_nil_iff_all_succeed_witness :
    (TerminateSubTasks scenarioOps ErrorMessageCollector.Summary fullConfig 5 0).err.isSome ∧
    (observedCalls scenarioOps ErrorMessageCollector.Summary fullConfig 5 0).map
        (fun c => (c.kind, c.childIdx)) =
      [(CallKind.abort, 0), (CallKind.finalize, 0), (CallKind.abort, 1), (CallKind.finalize, 1),
       (CallKind.abort, 2), (CallKind.finalize, 2), (CallKind.abort, 3), (CallKind.finalize, 3),
       (CallKind.abort, 4), (CallKind.finalize, 4)] :=
  ⟨(TerminateSubTasks_nil_iff_all_succeed scenarioOps ErrorMessageCollector.Summary fullConfig 5
      0).2.1.mpr ⟨3, by decide, Or.inl (by decide)⟩,
   (TerminateSubTasks_nil_iff_all_succeed scenarioOps ErrorMessageCollector.Summary fullConfig 5
      0).2.2.2.1⟩

/-- C4: the records handed to the collector are exactly the failures that occurred. For
`i = 0, 1, ..., size - 1` in this order the collector receives `(i, text)` if `Abort i`
returned the error `text`, and then `(i, text)` if `Finalize i` did, each called in the
world the calls before it left; a call that succeeded gives no record and nothing is
merged. The records are the failures among the calls the operations received, in the
order received, and their indices are in non-decreasing order. -/
theorem TerminateSubTasks_records_are_failures {σ : Type} (ops : SubTaskOps σ)
    (summary : ErrorMessageCollector → Int → String) (config : Config) (size : Int) (w : σ) :
    (TerminateSubTasks ops summary config size w).errs.records =
      (List.range size.toNat).flatMap (fun i =>
        ((ops.Abort i (worldBefore ops w i)).1.map (fun msg => (i, msg))).toList ++
        ((ops.Finalize i (ops.Abort i (worldBefore ops w i)).2).1.map
          (fun msg => (i, msg))).toList) ∧
    (TerminateSubTasks ops summary config size w).errs.records =
      (observedCalls ops summary config size w).filterMap failureRecord ∧
    (observedCalls ops summary config size w).map (fun c => (c.kind, c.childIdx)) =
      (List.range size.toNat).flatMap
        (fun i => [(CallKind.abort, i), (CallKind.finalize, i)]) ∧
    ((TerminateSubTasks ops summary config size w).errs.records.map Prod.fst).Pairwise
      (fun a b => a ≤ b) := by
  have hrecs : (TerminateSubTasks ops summary config size w).errs.records =
      (List.range size.toNat).flatMap (recordsOfChild ops w) := by
    simp [TerminateSubTasks, loop_eq_reference]
  refine ⟨?_, ?_, ?_, ?_⟩
  · rw [hrecs]
    rfl
  · rw [hrecs, observedCalls_eq, callsOfChild_failures]
  · rw [observedCalls_eq, callsOfChild_keys]
  · rw [hrecs]
    exact recordsOfChild_sorted ops w size.toNat

/-- C4 on the scenario of five children: the records are those of child 3 (its `Abort`)
and child 4 (its `Finalize`), in this order. -/
theorem TerminateSubTasks_records_are_failures_witness :
    (TerminateSubTasks scenarioOps ErrorMessageCollector.Summary fullConfig 5 0).errs.records =
      [(3, "abort failed"), (4, "finalize failed")] :=
  (TerminateSubTasks_records_are_failures scenarioOps ErrorMessageCollector.Summary fullConfig 5
    0).1.trans (by decide)

/-- C4's cases on concrete runs: a child that fails both calls yields two records with
its index, the `Abort` one first; the scenario of five children yields the records of
child 3 and child 4. -/
theorem TerminateSubTasks_records_examples :
    (TerminateSubTasks bothFailOps ErrorMessageCollector.Summary fullConfig 2 ()).errs.records =
      [(0, "a"), (0, "f"), (1, "a"), (1, "f")] ∧
    (TerminateSubTasks scenarioOps ErrorMessageCollector.Summary fullConfig 5 0).errs.records =
      [(3, "abort failed"), (4, "finalize failed")] := by
  decide

/-- What `TerminateSubTasks` returns: nil when no record was collected, and otherwise the
error `fmt.Errorf` makes of the summary used as the format string. -/
theorem TerminateSubTasks_err_eq {σ : Type} (ops : SubTaskOps σ)
    (summary : ErrorMessageCollector → Int → String) (config : Config) (size : Int) (w : σ) :
    (TerminateSubTasks ops summary config size w).err =
      if (TerminateSubTasks ops summary config size w).errs.records = [] then none
      else some (Errorf (summary (TerminateSubTasks ops summary config size w).errs
        config.MaxErrorStringLength)) := by
  simp only [TerminateSubTasks, ErrorMessageCollector.Length]
  by_cases h : ((List.range size.toNat).foldl (loopBody ops)
      ⟨w, NewErrorMessageCollector⟩).errs.records = []
  · simp [h]
  · simp [h, List.length_pos.mpr h]

/-- C3: one child whose `Abort` fails with the text `disk 95% full`. The summary is
`[0]: disk 95% full`; the returned error reads `[0]: disk 95%!f(MISSING)ull`, which is
not the summary and is longer than it. -/
theorem TerminateSubTasks_error_text_not_summary :
    (TerminateSubTasks percentOps ErrorMessageCollector.Summary fullConfig 1 ()).errs.Summary
        fullConfig.MaxErrorStringLength = "[0]: disk 95% full\n" ∧
    (TerminateSubTasks percentOps ErrorMessageCollector.Summary fullConfig 1 ()).err =
      some "[0]: disk 95%!f(MISSING)ull\n" ∧
    ("[0]: disk 95% full\n".length < "[0]: disk 95%!f(MISSING)ull\n".length) := by
  decide

/-- A format without a percent sign is returned by `Errorf` as it is. -/
theorem Errorf_of_no_percent (format : String) (h : ∀ c ∈ format.data, c ≠ '%') :
    Errorf format = format := by
  have htw : format.data.takeWhile (fun c => c != '%') = format.data := by
    rw [List.takeWhile_eq_self_iff]
    intro c hc
    exact bne_iff_ne.mpr (h c hc)
  have hloop : formatLoop format.data (format.data.length + 1) 0 [] = format.data := by
    simp only [formatLoop, List.drop_zero, htw, Nat.zero_add, Nat.sub_zero, List.take_length,
      List.nil_append, ge_iff_le, le_refl, if_true]
  simp only [Errorf, String.length, hloop]

/-- The scenario's error text holds no percent sign and is returned as the summary. -/
theorem Errorf_of_no_percent_witness :
    Errorf "[3]: abort failed\n[4]: finalize failed\n" =
      "[3]: abort failed\n[4]: finalize failed\n" :=
  Errorf_of_no_percent "[3]: abort failed\n[4]: finalize failed\n" (by decide)

/-! ## Properties of the template builder -/

/-- Lookup in a map restricted to the keys that satisfy `q`. -/
theorem StrMap.get_filter (m : StrMap) (q : String → Bool) (k : String) :
    StrMap.get (m.filter (fun kv => q kv.1)) k = if q k then StrMap.get m k else none := by
  induction m with
  | nil => simp [StrMap.get]
  | cons kv rest ih =>
    obtain ⟨k', v⟩ := kv
    by_cases hq : q k' = true
    · by_cases hk : k = k'
      · subst hk; simp [List.filter_cons, hq, StrMap.get]
      · simp [List.filter_cons, hq, StrMap.get, hk, ih]
    · by_cases hk : k = k'
      · subst hk; simp [List.filter_cons, hq, StrMap.get, ih]
      · simp [List.filter_cons, hq, StrMap.get, hk, ih]

/-- Lookup after the assignment `m[k] = v`. -/
theorem StrMap.get_set (m : StrMap) (k v k' : String) :
    StrMap.get (m.set k v) k' = if k' = k then some v else StrMap.get m k' := by
  by_cases h : k' = k
  · simp [StrMap.set, StrMap.get, h]
  · have := StrMap.get_filter m (fun x => decide (x ≠ k)) k'
    simp only [StrMap.set, StrMap.get, h, if_false]
    simpa [h] using this

/-- Lookup in two maps put one after the other: the first one is asked first. -/
theorem StrMap.get_append (a b : StrMap) (k : String) :
    StrMap.get (a ++ b) k = (StrMap.get a k).or (StrMap.get b k) := by
  induction a with
  | nil => simp [StrMap.get]
  | cons kv rest ih =>
    obtain ⟨k', v⟩ := kv
    by_cases hk : k = k'
    · simp [StrMap.get, hk]
    · simp [StrMap.get, hk, ih]

/-- Lookup in a union: the second map's entry if it has one, else the first map's. -/
theorem StrMap.get_union (a b : StrMap) (k : String) :
    StrMap.get (StrMap.union a b) k = (StrMap.get b k).or (StrMap.get a k) := by
  have hf := StrMap.get_filter a (fun x => (StrMap.get b x).isNone) k
  rw [StrMap.union, StrMap.get_append, hf]
  cases hb : StrMap.get b k <;> simp

/-- C7: for a template with a pod spec and a `primary_container_name` config entry,
`buildPodMapTask` returns a pod whose spec is the template's pod spec with the restart
policy set to `Never` and every other field as it was. -/
theorem buildPodMapTask_spec_restart_never {ρ : Type} (task : TaskTemplate ρ)
    (metadata : Option TaskExecutionMetadata) (podSpec : PodSpec ρ) (name : String)
    (hspec : task.podSpec = some podSpec)
    (hkey : task.config.get primaryContainerKey = some name) :
    ∃ pod, buildPodMapTask task metadata = Except.ok pod ∧
      pod.Spec = { podSpec with RestartPolicy := "Never" } := by
  simp [buildPodMapTask, hspec, hkey, RestartPolicyNever]

/-- C7 on the template of `TestBuildPodMapTask`: the two containers are kept and the
restart policy, unset in the template, is `Never`. -/
theorem buildPodMapTask_spec_restart_never_witness :
    ∃ pod, buildPodMapTask (getK8sPodTask (some [("anno", "bar")])) none = Except.ok pod ∧
      pod.Spec = { testPodSpec with RestartPolicy := "Never" } :=
  buildPodMapTask_spec_restart_never (getK8sPodTask (some [("anno", "bar")])) none testPodSpec
    "primary container" (by decide) (by decide)

/-- C8: `buildPodMapTask` checks the pod spec first. A template without a pod spec is
rejected with `[BadTaskSpecification] Missing pod spec for task`, whatever its config; a
template with a pod spec whose config lacks `primary_container_name` is rejected with
the text that names the key and renders the config map, `map[]` for an absent config. -/
theorem buildPodMapTask_errors {ρ : Type} (task : TaskTemplate ρ)
    (metadata : Option TaskExecutionMetadata) :
    (task.podSpec = none →
      ∃ e, buildPodMapTask task metadata = Except.error e ∧ e.Code = "BadTaskSpecification" ∧
        e.Error = "[BadTaskSpecification] Missing pod spec for task") ∧
    (task.podSpec ≠ none → task.config.get primaryContainerKey = none →
      ∃ e, buildPodMapTask task metadata = Except.error e ∧ e.Code = "BadTaskSpecification" ∧
        e.Error = "[BadTaskSpecification] invalid TaskSpecification, config missing " ++
          "[primary_container_name] key in [" ++ fmtMap task.config ++ "]") ∧
    (task.Config = none → fmtMap task.config = "map[]") := by
  refine ⟨?_, ?_, ?_⟩
  · intro h
    refine ⟨⟨BadTaskSpecification, "Missing pod spec for task"⟩, ?_, rfl, by decide⟩
    simp [buildPodMapTask, h]
  · intro h hkey
    obtain ⟨podSpec, hps⟩ := Option.ne_none_iff_exists'.mp h
    refine ⟨⟨BadTaskSpecification, "invalid TaskSpecification, config missing [" ++
      primaryContainerKey ++ "] key in [" ++ fmtMap task.config ++ "]"⟩, ?_, rfl, ?_⟩
    · simp only [buildPodMapTask, hps, hkey]
    apply String.ext
    simp [PluginError.Error, BadTaskSpecification, primaryContainerKey, String.data_append]
  · intro h
    simp only [TaskTemplate.config, h]
    decide

/-- C8 on the two templates of `TestBuildPodMapTask_Errors`: the empty template, and a
template with a pod spec and no config. -/
theorem buildPodMapTask_errors_witness :
    (∃ e, buildPodMapTask (⟨0, none, none, ⟨0⟩⟩ : TaskTemplate Unit) none = Except.error e ∧
      e.Code = "BadTaskSpecification" ∧
      e.Error = "[BadTaskSpecification] Missing pod spec for task") ∧
    (∃ e, buildPodMapTask (⟨0, none, some ⟨some testPodSpec, none⟩, ⟨0⟩⟩ : TaskTemplate Unit) none
        = Except.error e ∧ e.Code = "BadTaskSpecification" ∧
      e.Error = "[BadTaskSpecification] invalid TaskSpecification, config missing " ++
        "[primary_container_name] key in [" ++ "map[]" ++ "]") :=
  ⟨(buildPodMapTask_errors (⟨0, none, none, ⟨0⟩⟩ : TaskTemplate Unit) none).1 rfl,
   (buildPodMapTask_errors (⟨0, none, some ⟨some testPodSpec, none⟩, ⟨0⟩⟩ : TaskTemplate Unit)
      none).2.1 (by decide) (by decide)⟩

/-- C9: for a template with a pod spec and a `primary_container_name` entry, and execution
metadata that shares no label key and no annotation key with the template, the pod
`FlyteArrayJobToK8sPodTemplate` returns has the namespace and the owner reference of the
execution metadata; its labels are exactly the entries of both label maps; its
annotations are `safe-to-evict = false`, `primary_container_name` = the configured name,
and otherwise exactly the entries of both annotation maps. -/
theorem FlyteArrayJobToK8sPodTemplate_metadata {ρ : Type} (task : TaskTemplate ρ)
    (metadata : TaskExecutionMetadata) (podSpec : PodSpec ρ) (name : String)
    (hspec : task.podSpec = some podSpec)
    (hkey : task.config.get primaryContainerKey = some name)
    (hlabels : ∀ k, (metadata.Labels.getD []).get k = none ∨ task.labels.get k = none)
    (hannos : ∀ k, (metadata.Annotations.getD []).get k = none ∨
      task.annotations.get k = none) :
    ∃ pod labels annotations,
      FlyteArrayJobToK8sPodTemplate task metadata = Except.ok (pod, task.Custom) ∧
      pod.ObjectMeta.Namespace = metadata.Namespace ∧
      pod.ObjectMeta.OwnerReferences = some [metadata.OwnerReference] ∧
      pod.ObjectMeta.Labels = some labels ∧
      pod.ObjectMeta.Annotations = some annotations ∧
      (∀ k, labels.get k = ((metadata.Labels.getD []).get k).or (task.labels.get k) ∧
        labels.get k = (task.labels.get k).or ((metadata.Labels.getD []).get k)) ∧
      (∀ k, annotations.get k =
        if k = safeToEvictKey then some "false"
        else if k = primaryContainerKey then some name
        else ((metadata.Annotations.getD []).get k).or (task.annotations.get k)) ∧
      (∀ k, ((metadata.Annotations.getD []).get k).or (task.annotations.get k) =
        (task.annotations.get k).or ((metadata.Annotations.getD []).get k)) := by
  refine ⟨{ ObjectMeta :=
              { Namespace := metadata.Namespace
                Labels := some (StrMap.union (metadata.Labels.getD []) task.labels)
                Annotations := some ((StrMap.union (metadata.Annotations.getD [])
                  (task.annotations.set primaryContainerKey name)).set safeToEvictKey "false")
                OwnerReferences := some [metadata.OwnerReference] }
            Spec := { podSpec with RestartPolicy := RestartPolicyNever } },
    StrMap.union (metadata.Labels.getD []) task.labels,
    (StrMap.union (metadata.Annotations.getD [])
      (task.annotations.set primaryContainerKey name)).set safeToEvictKey "false",
    ?_, rfl, rfl, rfl, rfl, ?_, ?_, ?_⟩
  · simp [FlyteArrayJobToK8sPodTemplate, buildPodMapTask, hspec, hkey]
  · intro k
    simp only [StrMap.get_union]
    rcases hlabels k with h | h <;> rw [h] <;> cases task.labels.get k <;>
      cases (metadata.Labels.getD []).get k <;> simp_all
  · intro k
    simp only [StrMap.get_set, StrMap.get_union]
    by_cases h1 : k = safeToEvictKey
    · simp [h1]
    · by_cases h2 : k = primaryContainerKey
      · simp [h1, h2]
      · simp only [h1, h2, if_false]
        rcases hannos k with h | h <;> rw [h] <;> simp
  · intro k
    rcases hannos k with h | h <;> rw [h] <;> simp

/-- C9 on the data of `TestFlyteArrayJobToK8sPodTemplate`: metadata `tCtx: label` and
`tCtx: anno`, template `label: foo` and `anno: bar`. -/
theorem FlyteArrayJobToK8sPodTemplate_metadata_witness :
    ∃ pod labels annotations,
      FlyteArrayJobToK8sPodTemplate (getK8sPodTask (some [("anno", "bar")])) testMetadata =
        Except.ok (pod, ⟨100⟩) ∧
      pod.ObjectMeta.Namespace = "n" ∧
      pod.ObjectMeta.OwnerReferences = some [⟨"", "", "", ""⟩] ∧
      pod.ObjectMeta.Labels = some labels ∧
      pod.ObjectMeta.Annotations = some annotations ∧
      (∀ k, labels.get k = (StrMap.get [("tCtx", "label")] k).or (StrMap.get [("label", "foo")] k) ∧
        labels.get k = (StrMap.get [("label", "foo")] k).or (StrMap.get [("tCtx", "label")] k)) ∧
      (∀ k, annotations.get k =
        if k = safeToEvictKey then some "false"
        else if k = primaryContainerKey then some "primary container"
        else (StrMap.get [("tCtx", "anno")] k).or (StrMap.get [("anno", "bar")] k)) ∧
      (∀ k, (StrMap.get [("tCtx", "anno")] k).or (StrMap.get [("anno", "bar")] k) =
        (StrMap.get [("anno", "bar")] k).or (StrMap.get [("tCtx", "anno")] k)) :=
  FlyteArrayJobToK8sPodTemplate_metadata (getK8sPodTask (some [("anno", "bar")])) testMetadata
    testPodSpec "primary container" (by decide) (by decide)
    (fun k => by
      by_cases h : k = "tCtx"
      · right; subst h; decide
      · left; simp [testMetadata, StrMap.get, h])
    (fun k => by
      by_cases h : k = "tCtx"
      · right; subst h; decide
      · left; simp [testMetadata, StrMap.get, h])

/-- The metadata `TestFlyteArrayJobToK8sPodTemplate` expects, entry by entry. -/
theorem FlyteArrayJobToK8sPodTemplate_test_values :
    (FlyteArrayJobToK8sPodTemplate (getK8sPodTask (some [("anno", "bar")])) testMetadata).map
        (fun r => (r.1.ObjectMeta, r.2)) =
      Except.ok
        ({ Namespace := "n",
           Labels := some [("label", "foo"), ("tCtx", "label")],
           Annotations := some [("cluster-autoscaler.kubernetes.io/safe-to-evict", "false"),
             ("primary_container_name", "primary container"), ("anno", "bar"), ("tCtx", "anno")],
           OwnerReferences := some [⟨"", "", "", ""⟩] }, ⟨100⟩) := by
  rfl

end FlytePlugins
